import Mathlib

/-!
Verification development for the tende-api repository.

The repository is a FastAPI + psycopg CRUD backend over PostgreSQL.  The
development below gives a shallow embedding of the parts of the code that the
checked properties are about: the formula search queries built in
`src/tende/main.py` (`build_search_query`, `build_count_query`), the
`FormulaRepository` and `InvoiceRepository` data-access methods in
`src/tende/models/`, the `SearchParams` request model of `src/tende/schemas.py`,
and the ingredient deletion handlers of `src/tende/main.py`.

PostgreSQL-provided primitives (full-text match `@@ plainto_tsquery`,
`ts_rank_cd`, trigram `similarity`, `levenshtein`, `lower`, `ILIKE`) are
external collaborators of the repository; they are modelled as an abstract
record of functions (`DbFuns`) that every theorem quantifies over.  A table is
modelled as the list of its rows; a SQL `SELECT ... WHERE w ORDER BY k DESC
LIMIT l OFFSET o` over it is evaluated as filter, sort, drop, take.
-/

namespace Tende

/-- Abstract database-provided functions (external collaborators, see spec §6):
full-text match of a search vector against `plainto_tsquery` of a query,
`ts_rank_cd` relevance rank, trigram `similarity`, `levenshtein` edit distance,
SQL `lower`, and `ILIKE` pattern matching.  The repository only composes these;
their semantics live in PostgreSQL, so the development quantifies over them. -/
structure DbFuns where
  tsMatch : String → String → Bool
  tsRank : String → String → Rat
  similarity : String → String → Rat
  levenshtein : String → String → Nat
  lower : String → String
  ilike : String → String → Bool

/-- A row of the `formulas` table as selected by the search queries
(`SELECT id, name, description, ingredients, mass` plus the precomputed
`search_vector` column the WHERE clauses consult).  The `ingredients` jsonb
column holds the ingredient-identifier → percentage mapping
(`src/tende/models/formula.py`, `Formula` dataclass). -/
structure FormulaRow where
  id : String
  name : String
  description : String
  ingredients : List (String × Rat)
  mass : Rat
  searchVector : String
deriving DecidableEq

/-- The `Formula` dataclass of `src/tende/models/formula.py` (lines 10-16):
id, name, description, ingredient-identifier → percentage mapping, mass. -/
structure Formula where
  id : String
  name : String
  description : String
  ingredients : List (String × Rat)
  mass : Rat
deriving DecidableEq

/-- Conversion performed when a repository method materialises a fetched row
into a `Formula` dataclass (`models/formula.py` lines 94-100, 143-151,
272-280). -/
def FormulaRow.toFormula (r : FormulaRow) : Formula :=
  { id := r.id, name := r.name, description := r.description,
    ingredients := r.ingredients, mass := r.mass }

/-- A row of the `ingredients` table as selected by `search_ingredients`
(`SELECT id, name, unit, cost_per_unit, density`, main.py lines 1447-1453). -/
structure IngredientRow where
  id : String
  name : String
  unit : String
  costPerUnit : Rat
  density : Option Rat
deriving DecidableEq

/-- Insertion of an element into a list sorted by the boolean relation `le`,
keeping the list sorted; used to evaluate SQL `ORDER BY`. -/
def insertSorted (le : α → α → Bool) (a : α) : List α → List α
  | [] => [a]
  | b :: l => if le a b then a :: b :: l else b :: insertSorted le a l

/-- Insertion sort by the boolean relation `le`; the evaluation of a SQL
`ORDER BY` clause (which fixes no tie-break order; this picks one). -/
def sortBy (le : α → α → Bool) : List α → List α
  | [] => []
  | a :: l => insertSorted le a (sortBy le l)

/-- Evaluation of SQL `LIMIT limit OFFSET offset` on an ordered result list. -/
def paginate (offset limit : Nat) (l : List α) : List α :=
  (l.drop offset).take limit

/-- Modelled from the spec: the optional fuzzy-matching configuration, "a
similarity threshold and a maximum edit distance" (spec §4.4).  No such model
exists under src/ — `SearchParams` in `src/tende/schemas.py` (lines 298-302)
defines only `q`, `page`, `size`, `include` — yet `build_search_query` and
`build_count_query` in `src/tende/main.py` read `params.fuzzy
.similarity_threshold` and `params.fuzzy.max_distance`, so the two values are
taken here as the spec describes them. -/
structure FuzzyParams where
  similarityThreshold : Rat
  maxDistance : Nat
deriving DecidableEq

/-- WHERE clause of the fuzzy SELECT built by `build_search_query`
(main.py lines 1545-1550):
`search_vector @@ plainto_tsquery` of the query, or `similarity(name, q)`
strictly above the threshold, or `similarity(description, q)` strictly above
the threshold, or `levenshtein(lower(name), lower(q))` at most the max
distance, or `levenshtein(lower(description), lower(q))` at most the max
distance. -/
def fuzzyWhere (dbf : DbFuns) (q : String) (thr : Rat) (maxd : Nat)
    (r : FormulaRow) : Bool :=
  dbf.tsMatch r.searchVector q
    || decide (thr < dbf.similarity r.name q)
    || decide (thr < dbf.similarity r.description q)
    || decide (dbf.levenshtein (dbf.lower r.name) (dbf.lower q) ≤ maxd)
    || decide (dbf.levenshtein (dbf.lower r.description) (dbf.lower q) ≤ maxd)

/-- Rank column of the fuzzy SELECT built by `build_search_query`
(main.py lines 1539-1543): `GREATEST` of `ts_rank_cd(search_vector, q)`,
`similarity(name, q)` and `similarity(description, q)`. -/
def fuzzyScore (dbf : DbFuns) (q : String) (r : FormulaRow) : Rat :=
  max (dbf.tsRank r.searchVector q)
    (max (dbf.similarity r.name q) (dbf.similarity r.description q))

/-- WHERE clause of the fuzzy COUNT query built by `build_count_query`
(main.py lines 1593-1598); written out separately from `fuzzyWhere` because
claim C6 compares the two. -/
def fuzzyCountWhere (dbf : DbFuns) (q : String) (thr : Rat) (maxd : Nat)
    (r : FormulaRow) : Bool :=
  dbf.tsMatch r.searchVector q
    || decide (thr < dbf.similarity r.name q)
    || decide (thr < dbf.similarity r.description q)
    || decide (dbf.levenshtein (dbf.lower r.name) (dbf.lower q) ≤ maxd)
    || decide (dbf.levenshtein (dbf.lower r.description) (dbf.lower q) ≤ maxd)

/-- WHERE clause of the non-fuzzy SELECT (main.py line 1568, and
`models/formula.py` line 246): `search_vector @@ plainto_tsquery` of the
query. -/
def plainWhere (dbf : DbFuns) (q : String) (r : FormulaRow) : Bool :=
  dbf.tsMatch r.searchVector q

/-- Rank column of the non-fuzzy SELECT (main.py line 1566, and
`models/formula.py` line 244): `ts_rank_cd(search_vector, q)`. -/
def plainRank (dbf : DbFuns) (q : String) (r : FormulaRow) : Rat :=
  dbf.tsRank r.searchVector q

/-- WHERE clause of the non-fuzzy COUNT query (main.py line 1611, and
`models/formula.py` line 257); separate from `plainWhere` because claim C6
compares the two. -/
def plainCountWhere (dbf : DbFuns) (q : String) (r : FormulaRow) : Bool :=
  dbf.tsMatch r.searchVector q

/-- Descending comparison on the rank column, evaluating `ORDER BY rank DESC`
for result rows paired with their computed rank. -/
def rankDescLe (p q : FormulaRow × Rat) : Bool :=
  decide (q.2 ≤ p.2)

/-- Evaluation of the fuzzy SELECT built by `build_search_query`
(main.py lines 1537-1553) against a table: keep the rows passing
`fuzzyWhere`, pair each with its `GREATEST` rank, order by rank descending,
then apply `LIMIT size OFFSET (page-1)*size` (lines 1552, 1561). -/
def fuzzySearchRanked (dbf : DbFuns) (table : List FormulaRow) (q : String)
    (thr : Rat) (maxd : Nat) (page size : Nat) : List (FormulaRow × Rat) :=
  paginate ((page - 1) * size) size
    (sortBy rankDescLe
      ((table.filter (fuzzyWhere dbf q thr maxd)).map
        (fun r => (r, fuzzyScore dbf q r))))

/-- Rows of the fuzzy result page, without the rank column. -/
def fuzzySearchRows (dbf : DbFuns) (table : List FormulaRow) (q : String)
    (thr : Rat) (maxd : Nat) (page size : Nat) : List FormulaRow :=
  (fuzzySearchRanked dbf table q thr maxd page size).map Prod.fst

/-- Evaluation of the fuzzy COUNT query built by `build_count_query`
(main.py lines 1590-1599) against a table. -/
def fuzzyCount (dbf : DbFuns) (table : List FormulaRow) (q : String)
    (thr : Rat) (maxd : Nat) : Nat :=
  (table.filter (fuzzyCountWhere dbf q thr maxd)).length

/-- Evaluation of the non-fuzzy SELECT (main.py lines 1564-1571, and the
identical SQL of `FormulaRepository.search`, `models/formula.py` lines
242-249) against a table. -/
def plainSearchRanked (dbf : DbFuns) (table : List FormulaRow) (q : String)
    (page size : Nat) : List (FormulaRow × Rat) :=
  paginate ((page - 1) * size) size
    (sortBy rankDescLe
      ((table.filter (plainWhere dbf q)).map (fun r => (r, plainRank dbf q r))))

/-- Evaluation of the non-fuzzy COUNT query (main.py lines 1608-1612, and
`models/formula.py` lines 254-258) against a table. -/
def plainCount (dbf : DbFuns) (table : List FormulaRow) (q : String) : Nat :=
  (table.filter (plainCountWhere dbf q)).length

/-- Database exception classes of psycopg as caught by the repository
methods. -/
inductive DbError where
  | operational
  | dataError
  | integrity
  | programming
deriving DecidableEq

/-- The `FormulaRepository.search` method (`models/formula.py` lines 229-288):
runs the non-fuzzy SELECT and COUNT queries and materialises the fetched rows
into `Formula` dataclasses; database exceptions are logged and re-raised, and
with a responsive database the method returns the page and total count. -/
def FormulaRepository.search (dbf : DbFuns) (table : List FormulaRow)
    (q : String) (page size : Nat) : Except DbError (List Formula × Nat) :=
  .ok ((plainSearchRanked dbf table q page size).map (fun p => p.1.toFormula),
    plainCount dbf table q)

/-- Spec-side inclusion predicate for fuzzy search, following the words of
spec §4.4: the row is included if its search vector matches the plain
text-search query, or trigram similarity of name to the query exceeds the
threshold, or trigram similarity of description to the query exceeds the
threshold, or case-insensitive edit distance between name and query is at most
the max distance, or case-insensitive edit distance between description and
query is at most the max distance. -/
def specFuzzyInclude (dbf : DbFuns) (q : String) (thr : Rat) (maxd : Nat)
    (r : FormulaRow) : Prop :=
  dbf.tsMatch r.searchVector q = true
    ∨ dbf.similarity r.name q > thr
    ∨ dbf.similarity r.description q > thr
    ∨ dbf.levenshtein (dbf.lower r.name) (dbf.lower q) ≤ maxd
    ∨ dbf.levenshtein (dbf.lower r.description) (dbf.lower q) ≤ maxd

instance (dbf : DbFuns) (q : String) (thr : Rat) (maxd : Nat)
    (r : FormulaRow) : Decidable (specFuzzyInclude dbf q thr maxd r) := by
  unfold specFuzzyInclude
  infer_instance

/-- A Python value, as far as the modelled code inspects one. -/
inductive PyValue where
  | pyNone
  | pyStr (s : String)
  | pyNat (n : Nat)
  | pyRat (x : Rat)
deriving DecidableEq

/-- The `SearchParams` pydantic model of `src/tende/schemas.py` lines 298-302:
a required string `q`, `page` (default 1, at least 1), `size` (default 10,
between 1 and 100), and an optional string `include`.  There is no `fuzzy`
field. -/
structure SearchParams where
  q : String
  page : Nat
  size : Nat
  includeParam : Option String
deriving DecidableEq

/-- Python attribute lookup on a `SearchParams` instance: the model declares
exactly the fields `q`, `page`, `size` and `include` (schemas.py lines
298-302), so looking up any other attribute name yields nothing — in Python,
an `AttributeError`. -/
def SearchParams.getattr? (p : SearchParams) (attr : String) : Option PyValue :=
  if attr = ("q") then some (.pyStr p.q)
  else if attr = ("page") then some (.pyNat p.page)
  else if attr = ("size") then some (.pyNat p.size)
  else if attr = ("include") then
    some (match p.includeParam with | none => .pyNone | some s => .pyStr s)
  else none

/-- A Python exception class, as far as the modelled handlers distinguish
them. -/
inductive PyExc where
  | attributeError
  | dbError (e : DbError)
deriving DecidableEq

/-- Number of `%s` placeholders in the fuzzy SELECT text built by
`build_search_query` (main.py lines 1537-1553): three in the `GREATEST` rank
expression, one in the text-search WHERE arm, two in each of the four fuzzy
WHERE arms, and one each for LIMIT and OFFSET. -/
def fuzzySearchPlaceholderCount : Nat := 3 + 1 + 2 + 2 + 2 + 2 + 2

/-- The parameter list paired with the fuzzy SELECT by `build_search_query`
(main.py lines 1554-1562), in source order: `q` three times for the rank
expression, `q` twice under the comment "For tsquery", then `q` and the
threshold twice, `q` and the max distance twice, and the LIMIT/OFFSET
values. -/
def buildSearchQueryFuzzyParams (q : String) (thr : Rat) (maxd : Nat)
    (size offset : Nat) : List PyValue :=
  [.pyStr q, .pyStr q, .pyStr q,
   .pyStr q, .pyStr q,
   .pyStr q, .pyRat thr,
   .pyStr q, .pyRat thr,
   .pyStr q, .pyNat maxd,
   .pyStr q, .pyNat maxd,
   .pyNat size, .pyNat offset]

/-- Number of `%s` placeholders in the fuzzy COUNT text built by
`build_count_query` (main.py lines 1590-1599): one in the text-search WHERE
arm and two in each of the four fuzzy WHERE arms. -/
def fuzzyCountPlaceholderCount : Nat := 1 + 2 + 2 + 2 + 2

/-- The parameter list paired with the fuzzy COUNT query by
`build_count_query` (main.py lines 1600-1606): `q` twice under the comment
"For tsquery", then `q` and the threshold twice, `q` and the max distance
twice. -/
def buildCountQueryFuzzyParams (q : String) (thr : Rat) (maxd : Nat) :
    List PyValue :=
  [.pyStr q, .pyStr q,
   .pyStr q, .pyRat thr,
   .pyStr q, .pyRat thr,
   .pyStr q, .pyNat maxd,
   .pyStr q, .pyNat maxd]

/-- Outcome of one run of a route handler. -/
inductive RunOutcome where
  | ok (rows : List FormulaRow) (totalCount pageCount : Nat)
  | handlerError (status : Nat)
  | uncaught (exc : PyExc)
deriving DecidableEq

/-- HTTP status finally sent for a handler outcome: 200 for a shaped response,
the raised status for an `HTTPException`, and 500 for an exception nobody
caught (the ASGI server's response to an unhandled error). -/
def RunOutcome.httpStatus : RunOutcome → Nat
  | .ok _ _ _ => 200
  | .handlerError s => s
  | .uncaught _ => 500

/-- One run of the `search_formulas` handler body. -/
structure HandlerRun where
  outcome : RunOutcome
  dbQueriesExecuted : Nat
  caughtByHandlerExcept : Bool
deriving DecidableEq

/-- The `search_formulas` handler body (main.py lines 1651-1732).  Its first
statement is the `dd_logger.info` call at lines 1661-1667, whose `extra`
dictionary evaluates `params.fuzzy is not None` (line 1666) — and this call
sits BEFORE the `try:` at line 1669.  `SearchParams` has no `fuzzy` field, so
the attribute lookup raises `AttributeError`; the exception is raised outside
the `try`, so the `except` clause at line 1726 never sees it and it propagates
out of the handler with no database query executed.  The remaining arms model
the dead code after that point: had the lookup produced a fuzzy configuration,
executing the fuzzy SELECT would raise `ProgrammingError` (fifteen parameters
against fourteen placeholders), caught at line 1726 and turned into a 500;
had it produced `None`, the non-fuzzy SELECT and COUNT would run and the
response of lines 1698-1725 would be shaped, with `page_count` computed as
`(total_count + size - 1) // size` (line 1721). -/
def searchFormulasRun (dbf : DbFuns) (table : List FormulaRow)
    (p : SearchParams) : HandlerRun :=
  match p.getattr? ("fuzzy") with
  | none =>
      { outcome := .uncaught .attributeError
        dbQueriesExecuted := 0
        caughtByHandlerExcept := false }
  | some fuzzyVal =>
      match fuzzyVal with
      | .pyNone =>
          let rows := plainSearchRanked dbf table p.q p.page p.size
          let total := plainCount dbf table p.q
          { outcome := .ok (rows.map Prod.fst) total ((total + p.size - 1) / p.size)
            dbQueriesExecuted := 2
            caughtByHandlerExcept := false }
      | _ =>
          { outcome := .handlerError 500
            dbQueriesExecuted := 0
            caughtByHandlerExcept := true }

/-- FastAPI request-parameter validation for `GET /api/v1/search/formulas`
(`params: SearchParams = Depends()`): each query-string parameter is validated
against the pydantic fields of schemas.py lines 298-302.  A missing `q` fails
validation (422 before the handler runs); `q` being the EMPTY string passes,
since the field declares no minimum length; `page` must be at least 1 and
`size` between 1 and 100. -/
def parseSearchParams (q? : Option String) (page size : Int)
    (includeParam : Option String) : Except Nat SearchParams :=
  match q? with
  | none => .error 422
  | some qv =>
      if 1 ≤ page then
        if 1 ≤ size ∧ size ≤ 100 then
          .ok { q := qv, page := page.toNat, size := size.toNat,
                includeParam := includeParam }
        else .error 422
      else .error 422

/-- End-to-end model of a request to `GET /api/v1/search/formulas`: parameter
validation, then the handler body. -/
def searchFormulasEndpoint (dbf : DbFuns) (table : List FormulaRow)
    (q? : Option String) (page size : Int) (includeParam : Option String) :
    HandlerRun :=
  match parseSearchParams q? page size includeParam with
  | .error s =>
      { outcome := .handlerError s
        dbQueriesExecuted := 0
        caughtByHandlerExcept := false }
  | .ok p => searchFormulasRun dbf table p

/-- Python truthiness-based `q or search` (main.py line 1437): the first
operand if it is a non-empty string, otherwise the second operand. -/
def pyOrStr (a b : Option String) : Option String :=
  match a with
  | some s => if s = ("") then b else some s
  | none => b

/-- Python `not search_term` for an optional string (main.py line 1438): true
when the value is `None` or the empty string. -/
def pyFalsy : Option String → Bool
  | none => true
  | some s => s = ("")

/-- WHERE clause of the ingredient search query (main.py lines 1450, 1463-1464):
`name ILIKE pattern OR unit ILIKE pattern` with the pattern
`'%' + search_term + '%'` built at line 1455. -/
def ingredientMatches (dbf : DbFuns) (term : String) (r : IngredientRow) : Bool :=
  dbf.ilike r.name (("%") ++ term ++ ("%"))
    || dbf.ilike r.unit (("%") ++ term ++ ("%"))

/-- Ascending comparison on ingredient names, evaluating `ORDER BY name`
(main.py line 1451). -/
def nameAscLe (a b : IngredientRow) : Bool :=
  decide (a.name ≤ b.name)

/-- All rows matching the ingredient search, in `ORDER BY name` order, before
LIMIT/OFFSET are applied. -/
def ingredientHits (dbf : DbFuns) (table : List IngredientRow) (term : String) :
    List IngredientRow :=
  sortBy nameAscLe (table.filter (ingredientMatches dbf term))

/-- Response of one run of the `search_ingredients` handler: HTTP status, the
`data` rows, and the `meta` pagination counters of main.py lines 1489-1495. -/
structure IngSearchResponse where
  status : Nat
  data : List IngredientRow
  totalCount : Nat
  pageCount : Nat
  pageSize : Nat
  currentPage : Nat
deriving DecidableEq

/-- The `search_ingredients` handler (main.py lines 1420-1496) on a responsive
database, for pages at least 1 (the handler accepts raw ints with no
validation; this model covers the claim's domain `page ≥ 1`, where the offset
`(page - 1) * size` of line 1456 agrees with truncated subtraction).  The
effective term is `q or search`; a falsy term is rejected with a 400 before
any query (lines 1437-1443).  Otherwise the handler runs the SELECT with
`LIMIT size OFFSET (page-1)*size` (lines 1447-1457), the COUNT over the same
WHERE clause (lines 1461-1466), and shapes the meta counters with
`page_count = (total_count + size - 1) // size` (line 1491). -/
def searchIngredients (dbf : DbFuns) (table : List IngredientRow)
    (q? search? : Option String) (page size : Nat) : IngSearchResponse :=
  let term? := pyOrStr q? search?
  if pyFalsy term? then
    { status := 400, data := [], totalCount := 0, pageCount := 0,
      pageSize := size, currentPage := page }
  else
    let term := term?.getD ("")
    let total := (table.filter (ingredientMatches dbf term)).length
    { status := 200
      data := paginate ((page - 1) * size) size (ingredientHits dbf table term)
      totalCount := total
      pageCount := (total + size - 1) / size
      pageSize := size
      currentPage := page }

/-- State of the two tables the ingredient deletion handlers touch. -/
structure Store where
  ingredients : List IngredientRow
  formulas : List FormulaRow
deriving DecidableEq

/-- The COUNT of main.py lines 705-712: formulas whose `ingredients` jsonb
column contains the given ingredient identifier as a key (the jsonb `?`
operator). -/
def formulasReferencing (s : Store) (iid : String) : Nat :=
  (s.formulas.filter (fun f => f.ingredients.any (fun kv => kv.1 = iid))).length

/-- What the try block of `delete_ingredient` does before any exception
handling: 404 when the id is absent (line 702), a 400 `HTTPException` whose
detail interpolates the count of referencing formulas when that count is
positive (lines 714-724), and otherwise the DELETE (lines 727-730). -/
inductive DeleteTryResult where
  | deleted
  | notFound404
  | conflict400 (formulaCount : Nat)
deriving DecidableEq

/-- Try block of the `delete_ingredient` handler (main.py lines 689-730). -/
def deleteIngredientTryBlock (s : Store) (iid : String) :
    DeleteTryResult × Store :=
  if s.ingredients.any (fun r => r.id = iid) then
    let count := formulasReferencing s iid
    if 0 < count then (.conflict400 count, s)
    else (.deleted,
      { s with ingredients := s.ingredients.filter (fun r => ¬ r.id = iid) })
  else (.notFound404, s)

/-- The `delete_ingredient` handler (main.py lines 683-743), returning the
HTTP status sent, whether the response detail carries the referencing-formula
count, and the resulting store.  The `except Exception` clause at line 737
catches EVERY exception raised in the try block — including the
`HTTPException`s raised at lines 702 and 721 — and replaces it with a generic
`HTTPException(500, "Failed to delete ingredient")`; only the success path
returns the 204 of the route decorator. -/
def deleteIngredient (s : Store) (iid : String) : Nat × Option Nat × Store :=
  match deleteIngredientTryBlock s iid with
  | (.deleted, s1) => (204, none, s1)
  | (.notFound404, s1) => (500, none, s1)
  | (.conflict400 _, s1) => (500, none, s1)

/-- The `bulk_delete_ingredients` handler (main.py lines 1994-2039): with an
empty id list the interpolated `IN ()` is invalid SQL and the resulting
`ProgrammingError` is re-raised by the bare `raise` at line 2039 (an unhandled
exception, 500); if any id is missing the 404 `HTTPException` of lines
2023-2026 is re-raised unchanged; otherwise ALL the named ingredients are
deleted (lines 2029-2030) — the handler checks existence only, never whether a
formula references an ingredient — and the 200 response reports
`deleted_count`.  Returns the HTTP status, the reported deleted count, and the
resulting store. -/
def bulkDeleteIngredients (s : Store) (ids : List String) :
    Nat × Option Nat × Store :=
  if ids.isEmpty then (500, none, s)
  else if ids.all (fun i => s.ingredients.any (fun r => r.id = i)) then
    (200, some ids.length,
     { s with ingredients := s.ingredients.filter (fun r => ¬ ids.contains r.id) })
  else (404, none, s)

/-- Python `os.path.join` for the relative paths the invoice code joins:
concatenation with a single separator. -/
def osPathJoin (a b : String) : String :=
  if a.endsWith ("/") then a ++ b else a ++ ("/") ++ b

/-- The pdf path generated by the `create_invoice` endpoint (main.py lines
1940-1942): `invoices/{uuid4()}.pdf`. -/
def generatedPdfPath (uuidHex : String) : String :=
  ("invoices/") ++ uuidHex ++ (".pdf")

/-- The `Invoice` dataclass of `src/tende/models/invoice.py` (lines 13-19);
the line items are arbitrary structured metadata. -/
structure InvoiceRow where
  id : String
  date : String
  supplier : String
  pdfPath : String
  lineItems : List (List (String × PyValue))
deriving DecidableEq

/-- Filesystem contents, as the set of paths with a file present. -/
structure FsState where
  files : List String
deriving DecidableEq

/-- The `invoices` table. -/
structure InvoiceDb where
  rows : List InvoiceRow
deriving DecidableEq

/-- Events of one `InvoiceRepository.create` run, in order. -/
inductive CreateEvent where
  | wroteFile (path : String)
  | insertedRow (id : String)
  | removedFile (path : String)
deriving DecidableEq

/-- The `InvoiceRepository.create` method (`models/invoice.py` lines 26-71):
the PDF bytes are written to `os.path.join(upload_dir, invoice.pdf_path)`
(lines 37-40), then the row is inserted (lines 46-59).  `insertResult` is the
database's answer to the INSERT: on `none` the method returns the invoice; on
an exception the `except` clause (lines 67-71) removes the just-written file
and re-raises.  Returns the outcome, the filesystem, the table, and the event
trace. -/
def InvoiceRepository.create (uploadDir : String) (fs : FsState)
    (db : InvoiceDb) (inv : InvoiceRow) (insertResult : Option DbError) :
    Except DbError InvoiceRow × FsState × InvoiceDb × List CreateEvent :=
  let filePath := osPathJoin uploadDir inv.pdfPath
  let fs1 : FsState := { files := filePath :: fs.files }
  match insertResult with
  | none =>
      (.ok inv, fs1, { rows := db.rows ++ [inv] },
       [.wroteFile filePath, .insertedRow inv.id])
  | some e =>
      (.error e, { files := fs1.files.filter (fun p => ¬ p = filePath) }, db,
       [.wroteFile filePath, .removedFile filePath])

/-- The `FormulaRepository.create` method (`models/formula.py` lines 22-59):
INSERT of (id, name, description, ingredients jsonb, mass); a database
exception — in particular the `IntegrityError` for a duplicate primary key —
is logged and re-raised.  `json.dumps` of the string-keyed percentage dict and
the jsonb cast preserve the mapping, so the stored `ingredients` column is the
mapping itself; the `search_vector` column is populated by the database from
name and description (the abstract `sv`). -/
def FormulaRepository.create (sv : String → String → String)
    (table : List FormulaRow) (f : Formula) :
    Except DbError (Formula × List FormulaRow) :=
  if table.any (fun r => r.id = f.id) then .error .integrity
  else
    let row : FormulaRow :=
      { id := f.id, name := f.name, description := f.description,
        ingredients := f.ingredients, mass := f.mass,
        searchVector := sv f.name f.description }
    .ok (f, table ++ [row])

/-- The `FormulaRepository.get_by_id` method (`models/formula.py` lines
61-108): SELECT of the row with the given id (`fetchone`, the first match),
`None` when absent, otherwise the `Formula` built from the row's columns. -/
def FormulaRepository.getById (table : List FormulaRow) (fid : String) :
    Except DbError (Option Formula) :=
  .ok ((table.find? (fun r => r.id = fid)).map FormulaRow.toFormula)

/-- Concrete database functions used to instantiate witnesses: the text-search
predicate always matches with rank 1, similarities are 0, edit distances 0. -/
def dbf0 : DbFuns :=
  { tsMatch := fun _ _ => true
    tsRank := fun _ _ => 1
    similarity := fun _ _ => 0
    levenshtein := fun _ _ => 0
    lower := fun s => s
    ilike := fun _ _ => true }

/-- Concrete database functions whose text-search predicate never matches. -/
def dbfNone : DbFuns :=
  { tsMatch := fun _ _ => false
    tsRank := fun _ _ => 0
    similarity := fun _ _ => 0
    levenshtein := fun _ _ => 1
    lower := fun s => s
    ilike := fun _ _ => false }

/-- Concrete formula row used by witnesses. -/
def row0 : FormulaRow :=
  { id := ("f1"), name := ("Tea"), description := ("Herbal tea"),
    ingredients := [(("i1"), 100)], mass := 100, searchVector := ("tea") }

/-- Concrete ingredient row used by witnesses. -/
def ing0 : IngredientRow :=
  { id := ("i1"), name := ("Salt"), unit := ("g"), costPerUnit := 1,
    density := none }

/-- Store with one ingredient referenced by one formula. -/
def store0 : Store := { ingredients := [ing0], formulas := [row0] }

/-- Store with one ingredient referenced by no formula. -/
def store1 : Store := { ingredients := [ing0], formulas := [] }

/-- Concrete validated search parameters used by witnesses. -/
def p0 : SearchParams :=
  { q := ("tea"), page := 1, size := 10, includeParam := none }

/-- Concrete invoice used by witnesses. -/
def inv0 : InvoiceRow :=
  { id := ("v1"), date := ("2024-01-01"), supplier := ("Acme"),
    pdfPath := ("invoices/v1.pdf"), lineItems := [] }

/-- Concrete empty filesystem. -/
def fsEmpty : FsState := { files := [] }

/-- Concrete empty invoices table. -/
def invDbEmpty : InvoiceDb := { rows := [] }

/-- Concrete search-vector generator used by witnesses. -/
def svEmpty : String → String → String := fun _ _ => ("")

/-- The formula of the spec's round-trip example: ingredient-percentage
mapping `{A: 60, B: 40}` and mass 100. -/
def fAB : Formula :=
  { id := ("f2"), name := ("Blend"), description := (""),
    ingredients := [(("A"), 60), (("B"), 40)], mass := 100 }

/-!
Theorems.  General lemmas about the sort/paginate evaluation come first, then
one theorem per checked claim (with its witness or counterexample).
-/

theorem mem_insertSorted {le : α → α → Bool} {a x : α} {l : List α} :
    x ∈ insertSorted le a l ↔ x = a ∨ x ∈ l := by
  induction l with
  | nil => simp [insertSorted]
  | cons b l ih =>
    simp only [insertSorted]
    by_cases h : le a b = true
    · simp [h]
    · simp only [if_neg h, List.mem_cons, ih]
      tauto

theorem mem_sortBy {le : α → α → Bool} {x : α} {l : List α} :
    x ∈ sortBy le l ↔ x ∈ l := by
  induction l with
  | nil => simp [sortBy]
  | cons a l ih => simp [sortBy, mem_insertSorted, ih]

theorem length_insertSorted (le : α → α → Bool) (a : α) (l : List α) :
    (insertSorted le a l).length = l.length + 1 := by
  induction l with
  | nil => rfl
  | cons b l ih =>
    simp only [insertSorted]
    by_cases h : le a b = true
    · simp [h]
    · simp [if_neg h, ih]

theorem length_sortBy (le : α → α → Bool) (l : List α) :
    (sortBy le l).length = l.length := by
  induction l with
  | nil => rfl
  | cons a l ih => simp [sortBy, length_insertSorted, ih]

theorem pairwise_insertSorted {le : α → α → Bool}
    (htot : ∀ a b, le a b = true ∨ le b a = true)
    (htrans : ∀ a b c, le a b = true → le b c = true → le a c = true)
    {a : α} {l : List α} (hl : l.Pairwise (fun x y => le x y = true)) :
    (insertSorted le a l).Pairwise (fun x y => le x y = true) := by
  induction l with
  | nil => simp [insertSorted]
  | cons b l ih =>
    rcases List.pairwise_cons.mp hl with ⟨hb, hl'⟩
    simp only [insertSorted]
    by_cases h : le a b = true
    · rw [if_pos h]
      refine List.pairwise_cons.mpr ⟨?_, hl⟩
      intro y hy
      rcases List.mem_cons.mp hy with rfl | hy'
      · exact h
      · exact htrans a b y h (hb y hy')
    · rw [if_neg h]
      refine List.pairwise_cons.mpr ⟨?_, ih hl'⟩
      intro y hy
      rcases mem_insertSorted.mp hy with h1 | hy'
      · rw [h1]
        rcases htot a b with hab | hba
        · exact absurd hab h
        · exact hba
      · exact hb y hy'

theorem pairwise_sortBy {le : α → α → Bool}
    (htot : ∀ a b, le a b = true ∨ le b a = true)
    (htrans : ∀ a b c, le a b = true → le b c = true → le a c = true)
    (l : List α) :
    (sortBy le l).Pairwise (fun x y => le x y = true) := by
  induction l with
  | nil => simp [sortBy]
  | cons a l ih => exact pairwise_insertSorted htot htrans ih

theorem pairwise_paginate {R : α → α → Prop} {l : List α}
    (h : l.Pairwise R) (offset limit : Nat) :
    (paginate offset limit l).Pairwise R :=
  (h.sublist (List.drop_sublist offset l)).sublist
    (List.take_sublist limit (l.drop offset))

theorem mem_paginate {x : α} {l : List α} {offset limit : Nat}
    (h : x ∈ paginate offset limit l) : x ∈ l :=
  List.mem_of_mem_drop (List.mem_of_mem_take h)

theorem paginate_eq_nil {l : List α} {offset limit : Nat}
    (h : l.length ≤ offset) : paginate offset limit l = [] := by
  unfold paginate
  rw [List.drop_eq_nil_of_le h, List.take_nil]

theorem specFuzzyInclude_iff_fuzzyWhere (dbf : DbFuns) (q : String) (thr : Rat)
    (maxd : Nat) (r : FormulaRow) :
    specFuzzyInclude dbf q thr maxd r ↔ fuzzyWhere dbf q thr maxd r = true := by
  unfold specFuzzyInclude fuzzyWhere
  simp [Bool.or_eq_true, decide_eq_true_iff, or_assoc, gt_iff_lt]

theorem rankDescLe_total (p q : FormulaRow × Rat) :
    rankDescLe p q = true ∨ rankDescLe q p = true := by
  unfold rankDescLe
  rcases le_total q.2 p.2 with h | h
  · exact Or.inl (by simpa using h)
  · exact Or.inr (by simpa using h)

theorem rankDescLe_trans (p q r : FormulaRow × Rat)
    (h1 : rankDescLe p q = true) (h2 : rankDescLe q r = true) :
    rankDescLe p r = true := by
  unfold rankDescLe at h1 h2 ⊢
  simp only [decide_eq_true_iff] at h1 h2 ⊢
  exact le_trans h2 h1

/-- The fuzzy SELECT of `build_search_query` has fourteen placeholders but is
paired with fifteen parameters: psycopg refuses to execute such a statement
(raising `ProgrammingError`), so the fuzzy search query can never run. -/
theorem fuzzy_search_param_mismatch (q : String) (thr : Rat) (maxd : Nat)
    (size offset : Nat) :
    (buildSearchQueryFuzzyParams q thr maxd size offset).length ≠
      fuzzySearchPlaceholderCount := by
  simp only [buildSearchQueryFuzzyParams, fuzzySearchPlaceholderCount,
    List.length_cons, List.length_nil]
  omega

/-- The fuzzy COUNT of `build_count_query` has nine placeholders but is paired
with ten parameters, so it too can never execute. -/
theorem fuzzy_count_param_mismatch (q : String) (thr : Rat) (maxd : Nat) :
    (buildCountQueryFuzzyParams q thr maxd).length ≠
      fuzzyCountPlaceholderCount := by
  simp only [buildCountQueryFuzzyParams, fuzzyCountPlaceholderCount,
    List.length_cons, List.length_nil]
  omega

theorem fuzzy_mem_ranked {dbf : DbFuns} {table : List FormulaRow} {q : String}
    {thr : Rat} {maxd : Nat} {page size : Nat} {p : FormulaRow × Rat}
    (hp : p ∈ fuzzySearchRanked dbf table q thr maxd page size) :
    fuzzyWhere dbf q thr maxd p.1 = true ∧ p.2 = fuzzyScore dbf q p.1 := by
  have h1 := mem_paginate hp
  have h2 := mem_sortBy.mp h1
  rcases List.mem_map.mp h2 with ⟨r0, hr0, h⟩
  subst h
  exact ⟨(List.mem_filter.mp hr0).2, rfl⟩

theorem plain_mem_ranked {dbf : DbFuns} {table : List FormulaRow} {q : String}
    {page size : Nat} {p : FormulaRow × Rat}
    (hp : p ∈ plainSearchRanked dbf table q page size) :
    plainWhere dbf q p.1 = true ∧ p.2 = plainRank dbf q p.1 := by
  have h1 := mem_paginate hp
  have h2 := mem_sortBy.mp h1
  rcases List.mem_map.mp h2 with ⟨r0, hr0, h⟩
  subst h
  exact ⟨(List.mem_filter.mp hr0).2, rfl⟩

/-- C1: for every fuzzy formula search, every row of the returned page
satisfies at least one of the five spec conditions (text-search match, name
similarity above threshold, description similarity above threshold, name edit
distance within the max, description edit distance within the max), and the
inclusion predicate of the built query holds for exactly the rows satisfying
one of them — no row satisfying any of them is excluded from the inclusion
predicate. -/
theorem c1_fuzzy_inclusion_predicate (dbf : DbFuns) (table : List FormulaRow)
    (q : String) (thr : Rat) (maxd : Nat) (page size : Nat) :
    (∀ r ∈ fuzzySearchRows dbf table q thr maxd page size,
        specFuzzyInclude dbf q thr maxd r) ∧
    (∀ r : FormulaRow,
        specFuzzyInclude dbf q thr maxd r ↔ fuzzyWhere dbf q thr maxd r = true) := by
  refine ⟨?_, fun r => specFuzzyInclude_iff_fuzzyWhere dbf q thr maxd r⟩
  intro r hr
  rcases List.mem_map.mp hr with ⟨p, hp, rfl⟩
  exact (specFuzzyInclude_iff_fuzzyWhere dbf q thr maxd p.1).mpr
    (fuzzy_mem_ranked hp).1

/-- Witness for C1: at a concrete fuzzy search over a one-row table whose
search vector matches, the row is on the returned page and satisfies the spec
disjunction. -/
theorem c1_fuzzy_inclusion_predicate_witness :
    specFuzzyInclude dbf0 ("tea") 0 2 row0 :=
  (c1_fuzzy_inclusion_predicate dbf0 [row0] ("tea") 0 2 1 10).1 row0 (by decide)

/-- C2: for every fuzzy formula search, the rank column of every result row is
the maximum of the text-search rank, the name similarity and the description
similarity; the score expression does not consult the edit-distance function
(edit distance contributes to inclusion only); and the returned rows are
ordered by this score descending. -/
theorem c2_fuzzy_score_and_order (dbf : DbFuns) (table : List FormulaRow)
    (q : String) (thr : Rat) (maxd : Nat) (page size : Nat) :
    (∀ p ∈ fuzzySearchRanked dbf table q thr maxd page size,
        p.2 = max (dbf.tsRank p.1.searchVector q)
          (max (dbf.similarity p.1.name q) (dbf.similarity p.1.description q))) ∧
    (∀ lev : String → String → Nat, ∀ r : FormulaRow,
        fuzzyScore { dbf with levenshtein := lev } q r = fuzzyScore dbf q r) ∧
    (fuzzySearchRanked dbf table q thr maxd page size).Pairwise
      (fun p1 p2 => p2.2 ≤ p1.2) := by
  refine ⟨fun p hp => (fuzzy_mem_ranked hp).2, fun lev r => rfl, ?_⟩
  unfold fuzzySearchRanked
  exact pairwise_paginate
    ((pairwise_sortBy rankDescLe_total rankDescLe_trans _).imp
      (fun h => of_decide_eq_true h)) _ _

/-- Witness for C2: the rank paired with the concrete row on the returned page
is the three-way maximum. -/
theorem c2_fuzzy_score_and_order_witness :
    fuzzyScore dbf0 ("tea") row0 =
      max (dbf0.tsRank row0.searchVector ("tea"))
        (max (dbf0.similarity row0.name ("tea"))
          (dbf0.similarity row0.description ("tea"))) :=
  (c2_fuzzy_score_and_order dbf0 [row0] ("tea") 0 2 1 10).1
    (row0, fuzzyScore dbf0 ("tea") row0) (by decide)

/-- C3: for every non-fuzzy formula search, every selected row's search vector
satisfies the text-search predicate against the query and its rank column is
the text-search rank; the result page is ordered non-increasing in rank; and
when no row of the table matches, `FormulaRepository.search` returns the empty
page with total count 0, not an error. -/
theorem c3_plain_search (dbf : DbFuns) (table : List FormulaRow) (q : String)
    (page size : Nat) :
    (∀ p ∈ plainSearchRanked dbf table q page size,
        dbf.tsMatch p.1.searchVector q = true ∧
        p.2 = dbf.tsRank p.1.searchVector q) ∧
    (plainSearchRanked dbf table q page size).Pairwise
      (fun p1 p2 => p2.2 ≤ p1.2) ∧
    ((∀ r ∈ table, dbf.tsMatch r.searchVector q = false) →
        FormulaRepository.search dbf table q page size = .ok ([], 0)) := by
  refine ⟨fun p hp => plain_mem_ranked hp, ?_, ?_⟩
  · unfold plainSearchRanked
    exact pairwise_paginate
      ((pairwise_sortBy rankDescLe_total rankDescLe_trans _).imp
        (fun h => of_decide_eq_true h)) _ _
  · intro h
    have hf : table.filter (plainWhere dbf q) = [] := by
      refine List.filter_eq_nil_iff.mpr (fun a ha => ?_)
      simp [plainWhere, h a ha]
    have hf2 : table.filter (plainCountWhere dbf q) = [] := by
      refine List.filter_eq_nil_iff.mpr (fun a ha => ?_)
      simp [plainCountWhere, h a ha]
    simp [FormulaRepository.search, plainSearchRanked, plainCount, hf, hf2,
      sortBy, paginate]

/-- Witness for C3: with a never-matching text-search predicate the repository
search returns the empty page and zero count. -/
theorem c3_plain_search_witness :
    FormulaRepository.search dbfNone [row0] ("x") 1 10 = .ok ([], 0) :=
  (c3_plain_search dbfNone [row0] ("x") 1 10).2.2 (by decide)

/-- C6: the count query built by `build_count_query` has an inclusion
predicate equivalent to that of the ranked search query built by
`build_search_query` — in fuzzy and non-fuzzy mode alike — so on every table
both queries select exactly the same set of rows, and the reported total is
the number of rows satisfying the search query's predicate. -/
theorem c6_count_matches_search (dbf : DbFuns) (q : String) (thr : Rat)
    (maxd : Nat) (table : List FormulaRow) :
    (∀ r : FormulaRow,
        fuzzyCountWhere dbf q thr maxd r = fuzzyWhere dbf q thr maxd r) ∧
    table.filter (fuzzyCountWhere dbf q thr maxd) =
      table.filter (fuzzyWhere dbf q thr maxd) ∧
    fuzzyCount dbf table q thr maxd =
      (table.filter (fuzzyWhere dbf q thr maxd)).length ∧
    (∀ r : FormulaRow, plainCountWhere dbf q r = plainWhere dbf q r) ∧
    plainCount dbf table q = (table.filter (plainWhere dbf q)).length :=
  ⟨fun _ => rfl, rfl, rfl, fun _ => rfl, rfl⟩

/-- C4 counterexample: the claim states the `AttributeError` "is caught by the
handler's generic exception clause".  It is not: at a concrete valid request
the run shows the exception escaping the handler uncaught
(`caughtByHandlerExcept = false`, outcome `uncaught attributeError`) — the
dereference of `params.fuzzy` happens in the logging call at main.py line
1666, before the `try:` at line 1669.  Moreover the claim's "every request
... returns an HTTP 500" fails for a request with `q` missing, which is
rejected by parameter validation with a 422. -/
theorem c4_counterexample :
    (searchFormulasRun dbf0 [] p0).caughtByHandlerExcept = false ∧
    (searchFormulasRun dbf0 [] p0).outcome = .uncaught .attributeError ∧
    (searchFormulasEndpoint dbf0 [] none 1 10 none).outcome.httpStatus = 422 := by
  exact ⟨rfl, rfl, rfl⟩

/-- C4 as amended: for every request that passes parameter validation, the
handler dereferences `params.fuzzy` — an attribute `SearchParams` does not
define — before executing any database query, so it raises `AttributeError`
with zero queries executed; the exception is raised before the handler's
`try:` block, is therefore NOT caught by the handler's generic exception
clause, and propagates to the framework, which answers 500 — the fuzzy branch
and the response-shaping code are unreachable.  Requests failing validation
are answered 422 without reaching the handler. -/
theorem c4_fuzzy_attribute_error (dbf : DbFuns) (table : List FormulaRow)
    (p : SearchParams) :
    searchFormulasRun dbf table p =
      { outcome := .uncaught .attributeError
        dbQueriesExecuted := 0
        caughtByHandlerExcept := false } ∧
    (searchFormulasRun dbf table p).outcome.httpStatus = 500 ∧
    (∀ page size : Int, ∀ inc : Option String,
        (searchFormulasEndpoint dbf table none page size inc).outcome =
          .handlerError 422) :=
  ⟨rfl, rfl, fun _ _ _ => rfl⟩

/-- C8 counterexample: a request to the formula search endpoint with `q` set
to the EMPTY string is not rejected with a client error: `SearchParams.q`
declares no minimum length, so validation passes, and the handler then fails
with the `params.fuzzy` `AttributeError`, answered as a 500 server error. -/
theorem c8_counterexample :
    (searchFormulasEndpoint dbf0 [] (some ("")) 1 10 none).outcome.httpStatus
        = 500 ∧
    (searchFormulasEndpoint dbf0 [] (some ("")) 1 10 none).outcome =
      .uncaught .attributeError := by
  exact ⟨rfl, rfl⟩

/-- C8 as amended: a formula search request with `q` MISSING is rejected with
a 422 client error before any database query; a request with `q` EMPTY passes
validation (the field has no minimum length) and then fails with the
`params.fuzzy` `AttributeError`, a 500 server error — still before any
database query.  In both cases no query against the formulas table is
executed. -/
theorem c8_empty_query_handling (dbf : DbFuns) (table : List FormulaRow)
    (page size : Int) (inc : Option String) :
    ((searchFormulasEndpoint dbf table none page size inc).outcome =
        .handlerError 422 ∧
      (searchFormulasEndpoint dbf table none page size inc).dbQueriesExecuted
        = 0) ∧
    (1 ≤ page → 1 ≤ size → size ≤ 100 →
      (searchFormulasEndpoint dbf table (some ("")) page size inc).outcome =
          .uncaught .attributeError ∧
      (searchFormulasEndpoint dbf table (some ("")) page size inc).outcome.httpStatus
          = 500 ∧
      (searchFormulasEndpoint dbf table (some ("")) page size inc).dbQueriesExecuted
          = 0) := by
  refine ⟨⟨rfl, rfl⟩, fun h1 h2 h3 => ?_⟩
  have : parseSearchParams (some ("")) page size inc =
      .ok { q := (""), page := page.toNat, size := size.toNat,
            includeParam := inc } := by
    simp [parseSearchParams, h1, h2, h3]
  simp [searchFormulasEndpoint, this]
  exact ⟨rfl, rfl, rfl⟩

/-- Witness for C8 as amended, at a concrete request: missing `q` yields 422,
empty `q` yields the uncaught `AttributeError`. -/
theorem c8_empty_query_handling_witness :
    (searchFormulasEndpoint dbf0 [] none 1 10 none).outcome =
        .handlerError 422 ∧
    (searchFormulasEndpoint dbf0 [] (some ("")) 1 10 none).outcome =
      .uncaught .attributeError :=
  ⟨(c8_empty_query_handling dbf0 [] 1 10 none).1.1,
   ((c8_empty_query_handling dbf0 [] 1 10 none).2 (by decide) (by decide)
     (by decide)).1⟩

theorem ceil_div_lower_bound (t s : Nat) (hs : 1 ≤ s) :
    t ≤ ((t + s - 1) / s) * s := by
  have h0 : 0 < s := hs
  have h1 : (t + s - 1) / s < (t + s - 1) / s + 1 := Nat.lt_succ_self _
  have h2 : t + s - 1 < ((t + s - 1) / s + 1) * s :=
    (Nat.div_lt_iff_lt_mul h0).mp h1
  have h3 : ((t + s - 1) / s + 1) * s = ((t + s - 1) / s) * s + s := by ring
  omega

theorem ceil_div_least (t s m : Nat) (hs : 1 ≤ s) (h : t ≤ m * s) :
    (t + s - 1) / s ≤ m := by
  have h0 : 0 < s := hs
  have h2 : t + s - 1 < (m + 1) * s := by
    have h3 : (m + 1) * s = m * s + s := by ring
    omega
  have h4 := (Nat.div_lt_iff_lt_mul h0).mpr h2
  omega

/-- C5 counterexample: the claim covers formula search as well, but there a
concrete request with a page strictly beyond page_count (empty table, so
total_count 0 and page_count 0; page 3) is answered with a 500 error and no
data array — the formula search handler fails on every request before the
pagination response is shaped. -/
theorem c5_counterexample :
    (searchFormulasEndpoint dbf0 [] (some ("tea")) 3 10 none).outcome =
        .uncaught .attributeError ∧
    (searchFormulasEndpoint dbf0 [] (some ("tea")) 3 10 none).outcome.httpStatus
        = 500 :=
  ⟨rfl, rfl⟩

/-- C5 as amended: for ingredient search with a non-empty term, page ≥ 1 and
size in [1,100], the returned page is computed with offset (page-1)*size and
limit size over the name-ordered hits; the reported page_count is the ceiling
of total_count/size (it is the least m with total_count ≤ m*size); and a page
strictly beyond page_count yields an empty data array in a 200 response, not
an error.  The formula search handler contains the same pagination arithmetic,
but every run of it fails with HTTP 500 before any response is shaped (the
`params.fuzzy` defect of C4), so no page is ever returned there. -/
theorem c5_pagination (dbf : DbFuns) (ingTable : List IngredientRow)
    (term : String) (page size : Nat) (hterm : ¬ term = ("")) (hpage : 1 ≤ page)
    (hsize : 1 ≤ size) (_hsize2 : size ≤ 100) :
    (searchIngredients dbf ingTable (some term) none page size).status = 200 ∧
    (searchIngredients dbf ingTable (some term) none page size).data =
      paginate ((page - 1) * size) size (ingredientHits dbf ingTable term) ∧
    (searchIngredients dbf ingTable (some term) none page size).totalCount ≤
      (searchIngredients dbf ingTable (some term) none page size).pageCount
        * size ∧
    (∀ m : Nat,
        (searchIngredients dbf ingTable (some term) none page size).totalCount
            ≤ m * size →
        (searchIngredients dbf ingTable (some term) none page size).pageCount
            ≤ m) ∧
    ((searchIngredients dbf ingTable (some term) none page size).pageCount
          < page →
        (searchIngredients dbf ingTable (some term) none page size).data
          = []) ∧
    (∀ fTable : List FormulaRow, ∀ p : SearchParams,
        (searchFormulasRun dbf fTable p).outcome.httpStatus = 500) := by
  have hresp :
      searchIngredients dbf ingTable (some term) none page size =
        { status := 200
          data := paginate ((page - 1) * size) size
            (ingredientHits dbf ingTable term)
          totalCount := (ingTable.filter (ingredientMatches dbf term)).length
          pageCount :=
            ((ingTable.filter (ingredientMatches dbf term)).length + size - 1)
              / size
          pageSize := size
          currentPage := page } := by
    simp [searchIngredients, pyOrStr, pyFalsy, hterm]
  rw [hresp]
  refine ⟨rfl, rfl, ?_, ?_, ?_, fun _ _ => rfl⟩
  · exact ceil_div_lower_bound _ size hsize
  · intro m hm
    exact ceil_div_least _ size m hsize hm
  · intro hb
    apply paginate_eq_nil
    have hlen : (ingredientHits dbf ingTable term).length =
        (ingTable.filter (ingredientMatches dbf term)).length := by
      unfold ingredientHits
      exact length_sortBy _ _
    rw [hlen]
    have hb' :
        ((ingTable.filter (ingredientMatches dbf term)).length + size - 1)
            / size < page := hb
    have h1 :
        ((ingTable.filter (ingredientMatches dbf term)).length + size - 1)
            / size ≤ page - 1 := by omega
    calc (ingTable.filter (ingredientMatches dbf term)).length
        ≤ (((ingTable.filter (ingredientMatches dbf term)).length + size - 1)
            / size) * size := ceil_div_lower_bound _ size hsize
      _ ≤ (page - 1) * size := Nat.mul_le_mul_right size h1

/-- Witness for C5 as amended: a concrete ingredient search whose single hit
gives page_count 1; requesting page 5 returns status 200 with an empty data
array. -/
theorem c5_pagination_witness :
    (searchIngredients dbf0 [ing0] (some ("salt")) none 5 10).status = 200 ∧
    (searchIngredients dbf0 [ing0] (some ("salt")) none 5 10).data = [] :=
  ⟨(c5_pagination dbf0 [ing0] ("salt") 5 10 (by decide) (by decide) (by decide)
      (by decide)).1,
   (c5_pagination dbf0 [ing0] ("salt") 5 10 (by decide) (by decide) (by decide)
      (by decide)).2.2.2.2.1 (by decide)⟩

/-- C7 counterexample: in a concrete store whose single ingredient is
referenced by one formula, the single-ingredient DELETE answers a generic 500
with no count in its detail — not a conflict reporting the referencing count
(the handler's own `except Exception` clause catches the 400 it raised and
replaces it) — and the bulk-delete endpoint deletes the referenced ingredient
outright with a 200, refuting the claim on both counts. -/
theorem c7_counterexample :
    (deleteIngredient store0 ("i1")).1 = 500 ∧
    (deleteIngredient store0 ("i1")).2.1 = none ∧
    (deleteIngredient store0 ("i1")).2.2 = store0 ∧
    (bulkDeleteIngredients store0 [("i1")]).1 = 200 ∧
    (bulkDeleteIngredients store0 [("i1")]).2.2.ingredients = [] := by
  decide

/-- C7 as amended: for every existing ingredient referenced by at least one
formula, the single-ingredient DELETE leaves the store unchanged but answers a
generic 500 — its try block does raise a 400 whose detail carries the count of
referencing formulas, but the handler's blanket `except Exception` clause
converts every raised `HTTPException` into a 500 — while deleting an existing
unreferenced ingredient succeeds with a 204 and removes it; the bulk-delete
endpoint checks existence only and deletes every named existing ingredient
regardless of formula references. -/
theorem c7_delete_referenced (s : Store) (iid : String)
    (hex : s.ingredients.any (fun r => r.id = iid) = true) :
    (0 < formulasReferencing s iid →
        deleteIngredientTryBlock s iid =
          (.conflict400 (formulasReferencing s iid), s) ∧
        deleteIngredient s iid = (500, none, s)) ∧
    (formulasReferencing s iid = 0 →
        (deleteIngredient s iid).1 = 204 ∧
        (deleteIngredient s iid).2.2.ingredients =
          s.ingredients.filter (fun r => ¬ r.id = iid)) ∧
    (∀ ids : List String, ¬ ids = [] →
        ids.all (fun i => s.ingredients.any (fun r => r.id = i)) = true →
        bulkDeleteIngredients s ids =
          (200, some ids.length,
            { s with ingredients :=
                s.ingredients.filter (fun r => ¬ ids.contains r.id) })) := by
  refine ⟨?_, ?_, ?_⟩
  · intro hc
    have htry : deleteIngredientTryBlock s iid =
        (.conflict400 (formulasReferencing s iid), s) := by
      simp [deleteIngredientTryBlock, hex, hc]
    refine ⟨htry, ?_⟩
    unfold deleteIngredient
    rw [htry]
  · intro hz
    have htry : deleteIngredientTryBlock s iid =
        (.deleted,
          { s with ingredients :=
              s.ingredients.filter (fun r => ¬ r.id = iid) }) := by
      simp [deleteIngredientTryBlock, hex, hz]
    constructor
    · unfold deleteIngredient
      rw [htry]
    · unfold deleteIngredient
      rw [htry]
  · intro ids hne hall
    simp [bulkDeleteIngredients, List.isEmpty_iff, hne, hall]

/-- Witness for C7 as amended: the three branches at concrete stores — the
referenced ingredient's DELETE answers 500 and changes nothing, the
unreferenced one's answers 204, and the bulk delete removes the referenced
ingredient. -/
theorem c7_delete_referenced_witness :
    deleteIngredient store0 ("i1") = (500, none, store0) ∧
    (deleteIngredient store1 ("i1")).1 = 204 ∧
    bulkDeleteIngredients store0 [("i1")] =
      (200, some ([("i1")] : List String).length,
        { store0 with ingredients :=
            store0.ingredients.filter (fun r =>
              ¬ ([("i1")] : List String).contains r.id) }) :=
  ⟨((c7_delete_referenced store0 ("i1") (by decide)).1 (by decide)).2,
   ((c7_delete_referenced store1 ("i1") (by decide)).2.1 (by decide)).1,
   (c7_delete_referenced store0 ("i1") (by decide)).2.2 [("i1")] (by decide)
     (by decide)⟩

/-- C9: for every invoice creation, the first event is the write of the PDF to
the path joined from the configured upload directory and the invoice's pdf
path (which the endpoint generates as `invoices/{uuid}.pdf`, a path under the
upload directory); when the database insert fails the method propagates that
very error, the written file is no longer present, and no row was added; when
the insert succeeds the row is appended and the trace is exactly write then
insert — so a row exists only when the write preceded the insert. -/
theorem c9_invoice_create_saga (uploadDir : String) (fs : FsState)
    (db : InvoiceDb) (inv : InvoiceRow) (insertResult : Option DbError) :
    ((InvoiceRepository.create uploadDir fs db inv insertResult).2.2.2.head? =
        some (.wroteFile (osPathJoin uploadDir inv.pdfPath))) ∧
    (∀ e : DbError, insertResult = some e →
        (InvoiceRepository.create uploadDir fs db inv insertResult).1 =
            .error e ∧
        ¬ (osPathJoin uploadDir inv.pdfPath) ∈
            (InvoiceRepository.create uploadDir fs db inv
              insertResult).2.1.files ∧
        (InvoiceRepository.create uploadDir fs db inv insertResult).2.2.1
            = db) ∧
    (insertResult = none →
        (InvoiceRepository.create uploadDir fs db inv insertResult).1 =
            .ok inv ∧
        (InvoiceRepository.create uploadDir fs db inv
            insertResult).2.2.1.rows = db.rows ++ [inv] ∧
        (InvoiceRepository.create uploadDir fs db inv insertResult).2.2.2 =
          [.wroteFile (osPathJoin uploadDir inv.pdfPath),
           .insertedRow inv.id]) ∧
    (∀ u : String, ∃ rest : String,
        osPathJoin uploadDir (generatedPdfPath u) = uploadDir ++ rest) := by
  refine ⟨?_, ?_, ?_, ?_⟩
  · cases insertResult <;> rfl
  · rintro e rfl
    refine ⟨rfl, ?_, rfl⟩
    intro hmem
    have h2 := (List.mem_filter.mp hmem).2
    simp at h2
  · rintro rfl
    exact ⟨rfl, rfl, rfl⟩
  · intro u
    unfold osPathJoin
    by_cases h : uploadDir.endsWith ("/") = true
    · rw [if_pos h]
      exact ⟨generatedPdfPath u, rfl⟩
    · rw [if_neg h]
      exact ⟨("/") ++ generatedPdfPath u, String.append_assoc _ _ _⟩

/-- Witness for C9: a concrete failing insert propagates the error with no row
added, and a concrete succeeding one appends the row. -/
theorem c9_invoice_create_saga_witness :
    (InvoiceRepository.create ("uploads/invoices") fsEmpty invDbEmpty inv0
        (some .operational)).1 = .error .operational ∧
    (InvoiceRepository.create ("uploads/invoices") fsEmpty invDbEmpty inv0
        (some .operational)).2.2.1 = invDbEmpty ∧
    (InvoiceRepository.create ("uploads/invoices") fsEmpty invDbEmpty inv0
        none).2.2.1.rows = invDbEmpty.rows ++ [inv0] :=
  ⟨((c9_invoice_create_saga ("uploads/invoices") fsEmpty invDbEmpty inv0
      (some .operational)).2.1 .operational rfl).1,
   ((c9_invoice_create_saga ("uploads/invoices") fsEmpty invDbEmpty inv0
      (some .operational)).2.1 .operational rfl).2.2,
   ((c9_invoice_create_saga ("uploads/invoices") fsEmpty invDbEmpty inv0
      none).2.2.1 rfl).2.1⟩

/-- C10: creating a formula whose id is not yet in the table and then fetching
it by id returns a formula with the same ingredient-percentage mapping and the
same mass — create followed by get_by_id round-trips the mapping and mass. -/
theorem c10_create_get_roundtrip (sv : String → String → String)
    (table : List FormulaRow) (f : Formula)
    (hfresh : table.any (fun r => r.id = f.id) = false) :
    ∃ table2 : List FormulaRow,
      FormulaRepository.create sv table f = .ok (f, table2) ∧
      ∃ g : Formula, FormulaRepository.getById table2 f.id = .ok (some g) ∧
        g.ingredients = f.ingredients ∧ g.mass = f.mass := by
  have hcond : ¬ (table.any (fun r => r.id = f.id) = true) := by
    simp [hfresh]
  simp only [List.any_eq_true, decide_eq_true_eq, not_exists, not_and] at hcond
  refine ⟨table ++ [(⟨f.id, f.name, f.description, f.ingredients, f.mass,
      sv f.name f.description⟩ : FormulaRow)], ?_, ?_⟩
  · unfold FormulaRepository.create
    rw [if_neg (by simp [List.any_eq_true] at hfresh ⊢; exact hfresh)]
  · have hnone : table.find? (fun r => r.id = f.id) = none := by
      apply List.find?_eq_none.mpr
      intro x hx
      simp [hcond x hx]
    unfold FormulaRepository.getById
    rw [List.find?_append, hnone]
    refine ⟨_, ?_, rfl, rfl⟩
    rw [List.find?_cons_of_pos _ (by simp)]
    rfl

/-- Witness for C10, at the spec's own example: ingredient-percentage mapping
`{A: 60, B: 40}` and mass 100 survive the create/get round trip. -/
theorem c10_create_get_roundtrip_witness :
    ∃ table2 : List FormulaRow,
      FormulaRepository.create svEmpty [] fAB = .ok (fAB, table2) ∧
      ∃ g : Formula, FormulaRepository.getById table2 fAB.id = .ok (some g) ∧
        g.ingredients = fAB.ingredients ∧ g.mass = fAB.mass :=
  c10_create_get_roundtrip svEmpty [] fAB (by decide)

end Tende
